import Mathlib

/-!
Shallow embedding of the bigorm repository (src/bigorm) for checking its
natural-language specification.  Pure fragments of the Python code are
translated to Lean functions; stateful or I/O-bound fragments are modelled by
explicit parameters (e.g. the warehouse schema, the load job's reported
state).  Python `None` is `Option.none`; Python exceptions are `Except`
errors carrying the message (multi-line formatted messages are kept as a
`List String` of their lines).
-/

/-! ## Geometry (src/bigorm/bigquery_types.py)

Rings are the closed coordinate sequences stored by shapely (first point
repeated at the end); coordinates are modelled over `Int`.  `shoelace` is
twice the signed area of a ring, positive for counter-clockwise winding,
matching the sign of shapely's `signed_area`.
-/

abbrev GPoint := Int × Int

abbrev GRing := List GPoint

def cross (p q : GPoint) : Int := p.1 * q.2 - q.1 * p.2

/-- Twice the signed area of a closed coordinate sequence (shoelace formula
over adjacent pairs; the ring is closed, so no wrap-around term is needed). -/
def shoelace : GRing → Int
  | p :: q :: rest => cross p q + shoelace (q :: rest)
  | _ => 0

structure SPolygon where
  exterior : GRing
  interiors : List GRing
  deriving Repr, DecidableEq

/-- shapely.geometry.polygon.orient: the exterior ring is kept when
`signed_area / sign >= 0` (for `sign = ±1`, equivalently
`0 ≤ sign * shoelace`), otherwise its coordinates are reversed; each interior
ring is kept when `signed_area / sign <= 0`, otherwise reversed. -/
def shapely_orient (sign : Int) (p : SPolygon) : SPolygon :=
  { exterior := if 0 ≤ sign * shoelace p.exterior then p.exterior else p.exterior.reverse,
    interiors := p.interiors.map
      (fun r => if sign * shoelace r ≤ 0 then r else r.reverse) }

/-- The `_orient_polygon` branch for a bare LinearRing `r`: the ring is wrapped
into a polygon `Polygon(r)` (exterior `r`, no holes), oriented, and the
resulting exterior is returned. -/
def _orient_ring (sign : Int) (r : GRing) : GRing :=
  (shapely_orient sign { exterior := r, interiors := [] }).exterior

/-- The `_orient_polygon` case for a polygon: the exterior is taken from
`shapely_orient(polygon, sign)`, while each interior ring of the *original*
polygon is recursively oriented through the LinearRing branch. -/
def _orient_polygon (sign : Int) (p : SPolygon) : SPolygon :=
  { exterior := (shapely_orient sign p).exterior,
    interiors := p.interiors.map (_orient_ring sign) }

/-- Parsed geometry values (the shapely shapes relevant to the orientation
claims; WKT and GeoJSON inputs parse to the same representation). -/
inductive Geometry where
  | point (p : GPoint)
  | polygon (p : SPolygon)
  | multipolygon (ps : List SPolygon)
  deriving Repr, DecidableEq

/-- The orientation pass of `_geovalue_to_shapely`: polygons and
multipolygons are oriented with `sign = 1.0`; other shapes pass through. -/
def orient_geometry : Geometry → Geometry
  | .polygon p => .polygon (_orient_polygon 1 p)
  | .multipolygon ps => .multipolygon (ps.map (_orient_polygon 1))
  | g => g

/-- Embedding of `_geovalue_to_shapely` after parsing: validity checking (shapely's
`is_valid`, external topology code, kept abstract as a parameter) followed by
the orientation pass. -/
def _geovalue_to_shapely (is_valid : Geometry → Bool) (g : Geometry) :
    Except String Geometry :=
  if is_valid g then .ok (orient_geometry g) else .error "Invalid geometry"

/-- Embedding of `convert_geovalue_to_geojson_str`: the wire mapping produced by shapely's
`mapping` has exactly the keys `type` and `coordinates` and carries the same
coordinate sequences, so re-parsing the wire output recovers the geometry
itself; the wire round trip is modelled as the identity on `Geometry`. -/
def convert_geovalue_to_geojson (is_valid : Geometry → Bool) (g : Geometry) :
    Except String Geometry :=
  _geovalue_to_shapely is_valid g

/-! ### Shoelace lemmas -/

theorem cross_antisymm (p q : GPoint) : cross q p = -cross p q := by
  simp only [cross]; ring

theorem shoelace_nil : shoelace [] = 0 := rfl

theorem shoelace_singleton (p : GPoint) : shoelace [p] = 0 := rfl

theorem shoelace_cons_cons (p q : GPoint) (t : GRing) :
    shoelace (p :: q :: t) = cross p q + shoelace (q :: t) := rfl

theorem shoelace_append_single (xs : GRing) (a : GPoint) :
    shoelace (xs ++ [a]) =
      shoelace xs + (xs.getLast?).elim 0 (fun l => cross l a) := by
  induction xs with
  | nil => simp [shoelace_nil, shoelace_singleton]
  | cons x xs ih =>
    cases xs with
    | nil =>
      show cross x a + shoelace [a] = shoelace [x] + _
      simp [shoelace_singleton]
    | cons y t =>
      show cross x y + shoelace ((y :: t) ++ [a]) = _
      rw [ih, shoelace_cons_cons, List.getLast?_cons_cons]
      ring

theorem shoelace_reverse (r : GRing) : shoelace r.reverse = -shoelace r := by
  induction r with
  | nil => simp [shoelace_nil]
  | cons p rest ih =>
    cases rest with
    | nil => simp [shoelace_singleton]
    | cons q t =>
      rw [show (p :: q :: t).reverse = (q :: t).reverse ++ [p] by simp]
      rw [shoelace_append_single, ih]
      rw [show (q :: t).reverse.getLast? = some q by
        rw [List.getLast?_reverse]; rfl]
      simp only [Option.elim]
      rw [shoelace_cons_cons, cross_antisymm p q]
      ring

/-! ### Orientation lemmas -/

theorem orient_polygon_exterior (sign : Int) (p : SPolygon) :
    (_orient_polygon sign p).exterior = _orient_ring sign p.exterior := rfl

theorem orient_polygon_interiors (sign : Int) (p : SPolygon) :
    (_orient_polygon sign p).interiors = p.interiors.map (_orient_ring sign) := rfl

/-- With `sign = 1`, orienting a ring yields a ring whose doubled signed area
is the absolute value of the original: counter-clockwise regardless of the
input winding, and strictly positive whenever the input area is nonzero. -/
theorem shoelace_orient_ring (r : GRing) :
    shoelace (_orient_ring 1 r) = |shoelace r| := by
  show shoelace (if 0 ≤ 1 * shoelace r then r else r.reverse) = _
  simp only [one_mul]
  by_cases h : 0 ≤ shoelace r
  · rw [if_pos h, abs_of_nonneg h]
  · have h' : shoelace r < 0 := lt_of_not_ge h
    rw [if_neg h, shoelace_reverse, abs_of_neg h']

theorem orient_ring_idem (r : GRing) :
    _orient_ring 1 (_orient_ring 1 r) = _orient_ring 1 r := by
  have h : 0 ≤ shoelace (_orient_ring 1 r) := by
    rw [shoelace_orient_ring]; exact abs_nonneg _
  show (if 0 ≤ 1 * shoelace (_orient_ring 1 r) then _ else _) = _
  rw [if_pos (by rwa [one_mul])]

theorem orient_polygon_idem (p : SPolygon) :
    _orient_polygon 1 (_orient_polygon 1 p) = _orient_polygon 1 p := by
  show SPolygon.mk _ _ = SPolygon.mk _ _
  congr 1
  · rw [show (shapely_orient 1 (_orient_polygon 1 p)).exterior
        = _orient_ring 1 (_orient_polygon 1 p).exterior from rfl,
      orient_polygon_exterior, orient_ring_idem]
    rfl
  · rw [orient_polygon_interiors]
    simp [List.map_map, Function.comp, orient_ring_idem]

theorem orient_geometry_idem (g : Geometry) :
    orient_geometry (orient_geometry g) = orient_geometry g := by
  cases g with
  | point p => rfl
  | polygon p => simp [orient_geometry, orient_polygon_idem]
  | multipolygon ps =>
    simp [orient_geometry, List.map_map, Function.comp, orient_polygon_idem]

/-- The polygon components of a geometry. -/
def polygonsOf : Geometry → List SPolygon
  | .point _ => []
  | .polygon p => [p]
  | .multipolygon ps => ps

theorem geovalue_to_shapely_ok (is_valid : Geometry → Bool) (g g' : Geometry)
    (h : _geovalue_to_shapely is_valid g = .ok g') :
    g' = orient_geometry g := by
  by_cases hv : is_valid g = true
  · simp [_geovalue_to_shapely, hv] at h
    exact h.symm
  · simp [_geovalue_to_shapely, hv] at h

/-- C2: for every geometry accepted by canonicalization, every polygon
component of the output is the input component passed through
`_orient_polygon` with target sign `1`; that pass gives the exterior ring a
counter-clockwise (nonnegative, `|·|`-valued) doubled signed area and
re-orients each hole independently through the same routine `_orient_ring`,
which also forces a counter-clockwise sign, regardless of the original
winding of each ring. -/
theorem C2_rings_oriented_ccw (is_valid : Geometry → Bool) (g g' : Geometry)
    (h : _geovalue_to_shapely is_valid g = .ok g') :
    polygonsOf g' = (polygonsOf g).map (_orient_polygon 1) ∧
    (∀ p : SPolygon, shoelace (_orient_polygon 1 p).exterior = |shoelace p.exterior|) ∧
    (∀ p : SPolygon, (_orient_polygon 1 p).interiors = p.interiors.map (_orient_ring 1)) ∧
    (∀ r : GRing, shoelace (_orient_ring 1 r) = |shoelace r|) := by
  refine ⟨?_, ?_, ?_, ?_⟩
  · rw [geovalue_to_shapely_ok is_valid g g' h]
    cases g <;> rfl
  · intro p
    rw [orient_polygon_exterior, shoelace_orient_ring]
  · intro p
    exact orient_polygon_interiors 1 p
  · exact shoelace_orient_ring

/-- Witness for C2: a clockwise square with a clockwise hole is accepted and
both rings come out counter-clockwise (doubled signed areas 8 and 2). -/
theorem C2_rings_oriented_ccw_witness :
    _geovalue_to_shapely (fun _ => true)
      (.polygon { exterior := [(0, 0), (0, 2), (2, 2), (2, 0), (0, 0)],
                  interiors := [[(0, 0), (0, 1), (1, 1), (1, 0), (0, 0)]] })
      = .ok (.polygon { exterior := [(0, 0), (2, 0), (2, 2), (0, 2), (0, 0)],
                        interiors := [[(0, 0), (1, 0), (1, 1), (0, 1), (0, 0)]] }) ∧
    polygonsOf (.polygon { exterior := [(0, 0), (2, 0), (2, 2), (0, 2), (0, 0)],
                           interiors := [[(0, 0), (1, 0), (1, 1), (0, 1), (0, 0)]] })
      = (polygonsOf (.polygon { exterior := [(0, 0), (0, 2), (2, 2), (2, 0), (0, 0)],
                                interiors := [[(0, 0), (0, 1), (1, 1), (1, 0), (0, 0)]] })).map
          (_orient_polygon 1) := by
  constructor
  · rfl
  · exact (C2_rings_oriented_ccw (fun _ => true)
      (.polygon { exterior := [(0, 0), (0, 2), (2, 2), (2, 0), (0, 0)],
                  interiors := [[(0, 0), (0, 1), (1, 1), (1, 0), (0, 0)]] })
      (.polygon { exterior := [(0, 0), (2, 0), (2, 2), (0, 2), (0, 0)],
                  interiors := [[(0, 0), (1, 0), (1, 1), (0, 1), (0, 0)]] })
      (by rfl)).1

/-- C6: canonicalization is idempotent.  The wire output of
`convert_geovalue_to_geojson_str` is a two-key GeoJSON object carrying the
oriented coordinate sequences, so re-parsing it yields the canonicalized
geometry itself; feeding that geometry back through canonicalization (it
stays valid: shapely validity is insensitive to ring winding, kept as the
hypothesis `h2`) returns it unchanged. -/
theorem C6_canonicalize_idempotent (is_valid : Geometry → Bool) (g w : Geometry)
    (h1 : convert_geovalue_to_geojson is_valid g = .ok w)
    (h2 : is_valid w = true) :
    convert_geovalue_to_geojson is_valid w = .ok w := by
  have hw : w = orient_geometry g := geovalue_to_shapely_ok is_valid g w h1
  show _geovalue_to_shapely is_valid w = .ok w
  rw [_geovalue_to_shapely, if_pos h2, hw, orient_geometry_idem]

/-- Witness for C6: canonicalizing a clockwise triangle and re-canonicalizing
its wire output is a fixed point. -/
theorem C6_canonicalize_idempotent_witness :
    convert_geovalue_to_geojson (fun _ => true)
        (.polygon { exterior := [(0, 0), (0, 1), (1, 0), (0, 0)], interiors := [] })
      = .ok (.polygon { exterior := [(0, 0), (1, 0), (0, 1), (0, 0)], interiors := [] }) ∧
    convert_geovalue_to_geojson (fun _ => true)
        (.polygon { exterior := [(0, 0), (1, 0), (0, 1), (0, 0)], interiors := [] })
      = .ok (.polygon { exterior := [(0, 0), (1, 0), (0, 1), (0, 0)], interiors := [] }) := by
  refine ⟨by rfl, ?_⟩
  exact C6_canonicalize_idempotent (fun _ => true)
    (.polygon { exterior := [(0, 0), (0, 1), (1, 0), (0, 0)], interiors := [] })
    (.polygon { exterior := [(0, 0), (1, 0), (0, 1), (0, 0)], interiors := [] })
    (by rfl) rfl

/-! ## QueryFacade (src/bigorm/abstract_models.py, class BigQueryQuery)

`BigQueryQuery.__getattr__` is modelled as the sequence of observable events
it performs.  `super().__getattr__(name)` always raises `AttributeError`
(`object` defines no `__getattr__`), so control always reaches the `except`
branch, whose first action is `getattr(self.sqlalchemy_query, name)` — an
attribute access on the wrapped query-builder.  `hasAttr` tells whether the
wrapped sqlalchemy query has the attribute (on the real `Query` class all
names in both fixed sets exist). -/

def SAFE_SQLALCHEMY_QUERIES_EXCUTIONS : List String :=
  ["as_scalar", "column_descriptions", "count", "delete",
   "cte", "exists", "get_execution_options", "label",
   "selectable", "statement", "subquery"]

def NOT_SUPPORTED : List String :=
  ["from_statement", "get", "merge_result",
   "populate_existing", "values", "value",
   "with_parent", "with_session"]

inductive FacadeEvent where
  | underlyingGetattr (name : String)
  | raisedAttributeError
  | raisedNotSupported
  | returnedUnwrapped
  | returnedWrapped
  deriving Repr, DecidableEq

/-- Trace semantics of `BigQueryQuery.__getattr__(name)`: the observable
events in program order. -/
def bigQueryQuery_getattr (hasAttr : String → Bool) (name : String) :
    List FacadeEvent :=
  if hasAttr name then
    FacadeEvent.underlyingGetattr name ::
      (if SAFE_SQLALCHEMY_QUERIES_EXCUTIONS.contains name then
        [FacadeEvent.returnedUnwrapped]
      else if NOT_SUPPORTED.contains name then
        [FacadeEvent.raisedNotSupported]
      else
        [FacadeEvent.returnedWrapped])
  else
    [FacadeEvent.underlyingGetattr name, FacadeEvent.raisedAttributeError]

/-- Counterexample to C1: accessing `get` (a name in the unsupported set)
does raise, but only after the wrapped query-builder has been touched: the
trace starts with an attribute access on the underlying object, so the error
is not raised before the underlying object is touched. -/
theorem C1_counterexample :
    bigQueryQuery_getattr (fun _ => true) "get"
      = [FacadeEvent.underlyingGetattr "get", FacadeEvent.raisedNotSupported] ∧
    FacadeEvent.underlyingGetattr "get" ∈ bigQueryQuery_getattr (fun _ => true) "get" := by
  constructor
  · rfl
  · decide

/-- C1 amended: for every name in the unsupported set, when the wrapped
query-builder has the attribute (true of every name in the set on sqlalchemy's
`Query`), the facade raises `BigQueryOrmError` — but only after performing one
`getattr` on the wrapped query-builder, not before touching it. -/
theorem C1_not_supported_raises_after_touch (hasAttr : String → Bool)
    (name : String) (hmem : name ∈ NOT_SUPPORTED) (hattr : hasAttr name = true) :
    bigQueryQuery_getattr hasAttr name
      = [FacadeEvent.underlyingGetattr name, FacadeEvent.raisedNotSupported] := by
  have hsafe : SAFE_SQLALCHEMY_QUERIES_EXCUTIONS.contains name = false := by
    simp only [NOT_SUPPORTED, List.mem_cons, List.not_mem_nil, or_false] at hmem
    rcases hmem with h | h | h | h | h | h | h | h <;> subst h <;> decide
  have hns : NOT_SUPPORTED.contains name = true := by
    exact List.elem_eq_true_of_mem hmem
  rw [bigQueryQuery_getattr, if_pos hattr, hsafe, hns]
  rfl

/-- Witness for C1's amended theorem at the name `merge_result`. -/
theorem C1_not_supported_raises_after_touch_witness :
    bigQueryQuery_getattr (fun _ => true) "merge_result"
      = [FacadeEvent.underlyingGetattr "merge_result", FacadeEvent.raisedNotSupported] :=
  C1_not_supported_raises_after_touch (fun _ => true) "merge_result"
    (by decide) rfl

/-! ### one_or_none / one (BigQueryQuery)

`one_or_none` runs the query with `limit(2)` and materializes the results as
a list; a materialized row may itself be Python `None` (e.g. a single-entity
query selecting a NULL column value), so a row is an `Option V`.  The full
(unlimited) result sequence is the parameter; `List.take 2` models
`self.limit(2)`. -/

def one_or_none {V : Type} (allResults : List (Option V)) :
    Except String (Option V) :=
  let results := allResults.take 2
  if results.length = 0 then .ok none
  else if results.length > 1 then .error "MultipleResultsFound"
  else .ok (results.getD 0 none)

def one {V : Type} (allResults : List (Option V)) :
    Except String (Option V) :=
  match one_or_none allResults with
  | .error e => .error e
  | .ok none => .error "NoResultFound"
  | .ok (some v) => .ok (some v)

/-- C10: when the 2-row-limited query yields exactly one row that
materializes to `None`, `one_or_none` returns `None` — exactly its result on
an empty result set — and `one` raises `NoResultFound`, again exactly as on
an empty result set: a single null row is indistinguishable from no rows at
the public interface. -/
theorem C10_single_null_row_like_empty (V : Type) :
    one_or_none ([none] : List (Option V)) = .ok none ∧
    one_or_none ([] : List (Option V)) = .ok none ∧
    one ([none] : List (Option V)) = .error "NoResultFound" ∧
    one ([] : List (Option V)) = .error "NoResultFound" ∧
    one_or_none ([none] : List (Option V)) = one_or_none ([] : List (Option V)) ∧
    one ([none] : List (Option V)) = one ([] : List (Option V)) := by
  refine ⟨rfl, rfl, rfl, rfl, rfl, rfl⟩

/-! ## BigQueryColumn (src/bigorm/abstract_models.py)

`BigQueryColumn.__init__` manipulates the keyword arguments before delegating
to `sqlalchemy.Column`.  A keyword that the caller did not pass is
`Option.none` (`kwargs.get(k, None)` is then Python `None`).  Python values
that can be passed as `default` are modelled by `PyVal` together with their
truthiness (`bool(v)`); an opaque object such as a function is always truthy. -/

inductive PyVal where
  | int (n : Int)
  | str (s : String)
  | boolean (b : Bool)
  | obj
  deriving Repr, DecidableEq

/-- Python truthiness `bool(v)`. -/
def pyTruthy : PyVal → Bool
  | .int n => n != 0
  | .str s => !s.isEmpty
  | .boolean b => b
  | .obj => true

structure ColumnState where
  primary_key : Bool
  nullable : Bool
  default : Option PyVal
  server_default : Option PyVal
  name : String
  deriving Repr, DecidableEq

/-- Embedding of `BigQueryColumn.__init__`: forces `primary_key = True` (discarding any
caller-supplied value), defaults `nullable` to `True`, rejects a *truthy*
default on a nullable column (`kwargs.get('default', None) and
kwargs['nullable']`), rejects any non-`None` `server_default`
(`is not None`), and finally rejects the reserved name `_PARTITIONTIME`. -/
def bigQueryColumn_init (name : String) (primary_key : Option Bool)
    (nullable : Option Bool) (default : Option PyVal)
    (server_default : Option PyVal) : Except String ColumnState :=
  let nullable := nullable.getD true
  if ((default.map pyTruthy).getD false) && nullable then
    .error "default values are only implemented for REQUIRED columns."
  else if server_default.isSome then
    .error "Bigquery does not support server defaults."
  else if name = "_PARTITIONTIME" then
    .error "_PARTITIONTIME is a reserved column name in BigQuery."
  else
    .ok { primary_key := true, nullable := nullable, default := default,
          server_default := server_default, name := name }

/-- Counterexample to C7: the falsy default `0` on a nullable column is *not*
rejected — construction succeeds, contradicting "Constructing a column with
any default value while the column is nullable is rejected". -/
theorem C7_counterexample :
    bigQueryColumn_init "c" none (some true) (some (PyVal.int 0)) none
      = .ok { primary_key := true, nullable := true,
              default := some (PyVal.int 0), server_default := none,
              name := "c" } := by
  rfl

/-- C7 amended: only a *truthy* default on a nullable column is rejected
(Python's `and` short-circuits on falsy defaults such as `0`, `False` or
`''`, which slip through); any non-`None` server default is always rejected,
whatever its truthiness. -/
theorem C7_default_and_server_default_checks (name : String)
    (primary_key : Option Bool) (nullable : Option Bool)
    (default : Option PyVal) (server_default : Option PyVal) :
    (∀ d, default = some d → pyTruthy d = true → (nullable.getD true) = true →
      bigQueryColumn_init name primary_key nullable default server_default
        = .error "default values are only implemented for REQUIRED columns.") ∧
    (server_default.isSome = true →
      ∃ msg, bigQueryColumn_init name primary_key nullable default server_default
        = .error msg) := by
  constructor
  · intro d hd htruthy hnull
    rw [bigQueryColumn_init]
    have hc : ((default.map pyTruthy).getD false && nullable.getD true) = true := by
      rw [hd, hnull]
      simp [htruthy]
    rw [if_pos hc]
  · intro hsd
    rw [bigQueryColumn_init]
    by_cases hc : ((default.map pyTruthy).getD false) && nullable.getD true
    · exact ⟨_, by rw [if_pos hc]⟩
    · refine ⟨_, by rw [if_neg hc, if_pos hsd]⟩

/-- Witness for C7's amended theorem: a truthy default (`1`) on a nullable
column errors, and a falsy-but-present server default (`0`) errors. -/
theorem C7_default_and_server_default_checks_witness :
    bigQueryColumn_init "c" none (some true) (some (PyVal.int 1)) none
      = .error "default values are only implemented for REQUIRED columns." ∧
    (∃ msg, bigQueryColumn_init "c" none none none (some (PyVal.int 0))
      = .error msg) := by
  constructor
  · exact (C7_default_and_server_default_checks "c" none (some true)
      (some (PyVal.int 1)) none).1 (PyVal.int 1) rfl rfl rfl
  · exact (C7_default_and_server_default_checks "c" none none
      none (some (PyVal.int 0))).2 rfl

/-- C9: every successfully constructed column is unconditionally marked
`primary_key = True`, whatever value (if any) the caller supplied. -/
theorem C9_primary_key_forced (name : String) (primary_key : Option Bool)
    (nullable : Option Bool) (default : Option PyVal)
    (server_default : Option PyVal) (c : ColumnState)
    (h : bigQueryColumn_init name primary_key nullable default server_default
      = .ok c) :
    c.primary_key = true := by
  rw [bigQueryColumn_init] at h
  by_cases h1 : ((default.map pyTruthy).getD false) && nullable.getD true
  · rw [if_pos h1] at h; cases h
  · rw [if_neg h1] at h
    by_cases h2 : server_default.isSome
    · rw [if_pos h2] at h; cases h
    · rw [if_neg h2] at h
      by_cases h3 : name = "_PARTITIONTIME"
      · rw [if_pos h3] at h; cases h
      · rw [if_neg h3] at h
        cases h
        rfl

/-- Witness for C9: a column constructed with caller-supplied
`primary_key=False` still comes out with `primary_key = true`. -/
theorem C9_primary_key_forced_witness :
    (bigQueryColumn_init "c" (some false) none none none
      = .ok { primary_key := true, nullable := true, default := none,
              server_default := none, name := "c" }) ∧
    ({ primary_key := true, nullable := true, default := none,
       server_default := none, name := "c" } : ColumnState).primary_key = true := by
  exact ⟨rfl, C9_primary_key_forced "c" (some false) none none none _ rfl⟩

/-! ## create_load_job (src/bigorm/abstract_models.py)

The job submitted by `client.load_table_from_file` is modelled by the state
it reports once `create_load_job` interacts with it: `resultExc` is the text
of the local exception raised by `load_job.result()` while waiting, if any
(`result()` blocks until the job is in a terminal state); `errors` and
`error_result` are the job-side error list and error result (`Option.none`
is Python `None`).  The multi-line messages built with `'...'.format(...)`
are kept as the list of their lines; `optReprStr` stands for `'{}'.format(x)`
on an optional error payload. -/

structure LoadJob where
  resultExc : Option String
  errors : Option (List String)
  error_result : Option (List String)
  deriving Repr, DecidableEq

/-- Python truthiness of an optional error payload (`None` and `[]`/`{}` are
falsy), as used by `job.errors and len(job.errors) > 0`. -/
def truthyPayload : Option (List String) → Bool
  | none => false
  | some l => !l.isEmpty

def optReprStr : Option (List String) → String
  | none => "None"
  | some l => toString l

def DEFAULT_HINT : String :=
  String.append "This error may have occured because a column"
    " default value could not be created locally.  Only scalar defaults or python callables are supported."

/-- Embedding of `create_load_job` after the job has been submitted: wait on the job, wrap
a local exception into a `DatabaseError` whose message carries the job's
errors list, the exception text and the job's error result; otherwise still
raise whenever the job reports a non-empty `error_result` or a non-empty
`errors` list. -/
def create_load_job_wait (job : LoadJob) : Except (List String) Unit :=
  match job.resultExc with
  | some excText =>
    .error [optReprStr job.errors, excText, optReprStr job.error_result,
            DEFAULT_HINT]
  | none =>
    if truthyPayload job.error_result || truthyPayload job.errors then
      .error [optReprStr job.errors, optReprStr job.error_result]
    else
      .ok ()

/-- C3: (a) a local exception while waiting is never swallowed — the raised
`DatabaseError` carries the original exception text together with the job's
errors list and error result; (b) even with no local exception, the call
still fails whenever the job's error result is non-empty; (c) likewise
whenever the job's errors list is non-empty — job completion is not job
success. -/
theorem C3_load_job_error_propagation (job : LoadJob) :
    (∀ excText, job.resultExc = some excText →
      ∃ lines, create_load_job_wait job = .error lines ∧
        excText ∈ lines ∧ optReprStr job.errors ∈ lines ∧
        optReprStr job.error_result ∈ lines) ∧
    (job.resultExc = none → truthyPayload job.error_result = true →
      ∃ lines, create_load_job_wait job = .error lines) ∧
    (job.resultExc = none → truthyPayload job.errors = true →
      ∃ lines, create_load_job_wait job = .error lines) := by
  refine ⟨?_, ?_, ?_⟩
  · intro excText hexc
    refine ⟨[optReprStr job.errors, excText, optReprStr job.error_result,
      DEFAULT_HINT], ?_, ?_, ?_, ?_⟩
    · rw [create_load_job_wait, hexc]
    · simp
    · simp
    · simp
  · intro hexc htr
    rw [create_load_job_wait, hexc]
    simp only [htr, Bool.true_or]
    exact ⟨_, rfl⟩
  · intro hexc htr
    rw [create_load_job_wait, hexc]
    by_cases h : truthyPayload job.error_result
    · simp only [h, Bool.true_or]
      exact ⟨_, rfl⟩
    · simp only [h, htr, Bool.false_or]
      exact ⟨_, rfl⟩

/-- Witness for C3: a job whose wait raised locally (with a job-side errors
list), and a job that completed the wait but reports errors. -/
theorem C3_load_job_error_propagation_witness :
    (∃ lines,
      create_load_job_wait
        { resultExc := some "Timeout()", errors := some ["row 3 bad"],
          error_result := none } = .error lines ∧
      "Timeout()" ∈ lines ∧
      optReprStr (some ["row 3 bad"]) ∈ lines ∧
      optReprStr (none : Option (List String)) ∈ lines) ∧
    (∃ lines,
      create_load_job_wait
        { resultExc := none, errors := some ["row 3 bad"],
          error_result := some ["internalError"] } = .error lines) := by
  constructor
  · exact (C3_load_job_error_propagation
      { resultExc := some "Timeout()", errors := some ["row 3 bad"],
        error_result := none }).1 "Timeout()" rfl
  · exact (C3_load_job_error_propagation
      { resultExc := none, errors := some ["row 3 bad"],
        error_result := some ["internalError"] }).2.1 rfl rfl

/-! ## create / _create_streaming (src/bigorm/abstract_models.py)

A serialized row is an association list from wire field name to an optional
value (Python `None` is `Option.none`); Python `dict` construction
`dict(empty_row, **params)` keeps the base dict's keys (in order) with values
overridden by `params`, then appends the keys of `params` that are absent
from the base dict.  `client.get_table` and `client.insert_rows` are I/O:
the live `table.schema` field names are the `schema` parameter, and the rows
passed to each `insert_rows` call are returned instead of being sent.
Instances are homogeneous by the type parameter, so the source's
`type(inst) == cls` guard always passes. -/

abbrev WireRow (V : Type) := List (String × Option V)

def alookup {β : Type} (k : String) : List (String × β) → Option β
  | [] => none
  | (k', v) :: rest => if k' = k then some v else alookup k rest

/-- Python `dict(base, **overlay)`. -/
def dictMerge {β : Type} (base overlay : List (String × β)) :
    List (String × β) :=
  base.map (fun kv => (kv.1, (alookup kv.1 overlay).getD kv.2)) ++
  overlay.filter (fun kv => (alookup kv.1 base).isNone)

/-- Fuel-indexed helper for `chunks`; the fuel only has to dominate the list
length, so the recursion is structural and slicing computes in the kernel. -/
def chunksFuel {α : Type} (b : Nat) : Nat → List α → List (List α)
  | _, [] => []
  | 0, _ :: _ => []
  | fuel + 1, x :: xs =>
    (x :: xs.take (b - 1)) :: chunksFuel b fuel (xs.drop (b - 1))

/-- The consecutive slices `instances[i:i+batch_size]` produced by
`range(0, len(instances), batch_size)`, for `batch_size ≥ 1`. -/
def chunks {α : Type} (b : Nat) (l : List α) : List (List α) :=
  chunksFuel b l.length l

/-- Embedding of `_create_streaming`: builds the all-`None` template from the table's
live schema, serializes each instance, overlays each serialized row onto the
template, and submits the resulting rows in one `insert_rows` call. -/
def _create_streaming {α V : Type} (schema : List String)
    (serialize : α → WireRow V) (instances : List α) : List (WireRow V) :=
  let empty_row : WireRow V := schema.map (fun f => (f, none))
  let seq_of_parameters := instances.map serialize
  seq_of_parameters.map (fun params => dictMerge empty_row params)

/-- Embedding of `create`: a `batch_size` of `None` sends everything in one streaming call;
otherwise `batch_size < 1` raises `ValueError`, and `batch_size ≥ 1` slices
the instance list and makes one streaming call per slice.  The result is the
list of `insert_rows` calls, each with its rows. -/
def create {α V : Type} (schema : List String) (serialize : α → WireRow V)
    (instances : List α) (batch_size : Option Int) :
    Except String (List (List (WireRow V))) :=
  match batch_size with
  | none => .ok [_create_streaming schema serialize instances]
  | some b =>
    if b < 1 then .error (String.append "batch_size was " (toString b))
    else .ok ((chunks b.toNat instances).map (_create_streaming schema serialize))

theorem alookup_map_fn {β : Type} (f : String) (schema : List String)
    (h : f ∈ schema) (fn : String → β) :
    alookup f (schema.map (fun g => (g, fn g))) = some (fn f) := by
  induction schema with
  | nil => cases h
  | cons s ss ih =>
    rw [List.map_cons, alookup]
    by_cases hs : s = f
    · rw [if_pos hs, hs]
    · rw [if_neg hs]
      exact ih (by rcases List.mem_cons.mp h with h' | h'; exact absurd h'.symm hs; exact h')

theorem alookup_append_left {β : Type} (f : String)
    (xs ys : List (String × β)) (v : β) (h : alookup f xs = some v) :
    alookup f (xs ++ ys) = some v := by
  induction xs with
  | nil => cases h
  | cons kv rest ih =>
    rw [List.cons_append, alookup]
    rw [alookup] at h
    by_cases hk : kv.1 = f
    · rw [if_pos hk] at h ⊢
      exact h
    · rw [if_neg hk] at h ⊢
      exact ih h

/-- Every schema field is present in the merged row: its value is the
serialized row's value when present, `None` otherwise (full-width rows). -/
theorem dictMerge_full_width {V : Type} (schema : List String)
    (params : WireRow V) (f : String) (h : f ∈ schema) :
    alookup f (dictMerge (schema.map (fun g => (g, (none : Option V)))) params)
      = some ((alookup f params).getD none) := by
  rw [dictMerge]
  apply alookup_append_left
  rw [List.map_map]
  have : ((fun kv : String × Option V => (kv.1, (alookup kv.1 params).getD kv.2))
      ∘ (fun g => (g, (none : Option V))))
      = fun g => (g, (alookup g params).getD none) := rfl
  rw [this]
  exact alookup_map_fn f schema h _

theorem chunksFuel_flatten {α : Type} (b : Nat) :
    ∀ (n : Nat) (l : List α), l.length ≤ n → (chunksFuel b n l).flatten = l := by
  intro n
  induction n with
  | zero =>
    intro l hl
    cases l with
    | nil => rfl
    | cons x xs => simp at hl
  | succ n ih =>
    intro l hl
    cases l with
    | nil => rfl
    | cons x xs =>
      show ((x :: xs.take (b - 1)) :: chunksFuel b n (xs.drop (b - 1))).flatten
        = x :: xs
      rw [List.flatten_cons,
        ih _ (by rw [List.length_drop]; simp at hl; omega),
        List.cons_append, List.take_append_drop]

theorem chunks_flatten {α : Type} (b : Nat) (l : List α) :
    (chunks b l).flatten = l := by
  have hf : ∀ (n : Nat), l.length = n → (chunksFuel b n l).flatten = l :=
    fun n hn => chunksFuel_flatten b n l (le_of_eq hn)
  exact hf l.length rfl

theorem chunksFuel_length_le {α : Type} (b : Nat) (hb : 1 ≤ b) :
    ∀ (n : Nat) (l : List α), ∀ c ∈ chunksFuel b n l, c.length ≤ b := by
  intro n
  induction n with
  | zero =>
    intro l c hc
    cases l with
    | nil => cases hc
    | cons x xs => cases hc
  | succ n ih =>
    intro l c hc
    cases l with
    | nil => cases hc
    | cons x xs =>
      have hc' : c ∈ (x :: xs.take (b - 1)) :: chunksFuel b n (xs.drop (b - 1)) :=
        hc
      rcases List.mem_cons.mp hc' with h | h
      · subst h
        rw [List.length_cons, List.length_take]
        omega
      · exact ih (xs.drop (b - 1)) c h

theorem chunks_length_le {α : Type} (b : Nat) (hb : 1 ≤ b) (l : List α)
    (c : List α) (hc : c ∈ chunks b l) : c.length ≤ b :=
  chunksFuel_length_le b hb l.length l c hc

/-- C4: with `batch_size` unset, all rows go in a single call; with an
integer `batch_size ≥ 1` the instance list is cut into consecutive slices of
at most `batch_size` elements whose concatenation is the original list (each
instance submitted exactly once, in order), one streaming call per slice;
each streaming call serializes its instances in order and overlays each row
onto the all-`None` template of the live schema, so every schema field is
present in every submitted row; `batch_size < 1` raises `ValueError`. -/
theorem C4_create_batching (V : Type) {α : Type} (schema : List String)
    (serialize : α → WireRow V) (instances : List α) :
    (create schema serialize instances none
      = .ok [_create_streaming schema serialize instances]) ∧
    (∀ b : Int, 1 ≤ b →
      create schema serialize instances (some b)
          = .ok ((chunks b.toNat instances).map
              (_create_streaming schema serialize)) ∧
        (chunks b.toNat instances).flatten = instances ∧
        (∀ c ∈ chunks b.toNat instances, c.length ≤ b.toNat)) ∧
    (∀ b : Int, b < 1 →
      create schema serialize instances (some b)
        = .error (String.append "batch_size was " (toString b))) ∧
    (∀ insts : List α, _create_streaming schema serialize insts
      = insts.map (fun inst =>
          dictMerge (schema.map (fun g => (g, (none : Option V))))
            (serialize inst))) ∧
    (∀ (params : WireRow V) (f : String), f ∈ schema →
      alookup f (dictMerge (schema.map (fun g => (g, (none : Option V)))) params)
        = some ((alookup f params).getD none)) := by
  refine ⟨rfl, ?_, ?_, ?_, ?_⟩
  · intro b hb
    refine ⟨?_, chunks_flatten b.toNat instances, ?_⟩
    · rw [create, if_neg (by omega)]
    · intro c hc
      exact chunks_length_le b.toNat (by omega) instances c hc
  · intro b hb
    rw [create, if_pos hb]
  · intro insts
    rw [_create_streaming, List.map_map]
    rfl
  · intro params f hf
    exact dictMerge_full_width schema params f hf

/-- Witness for C4: three instances, batch size 2, a two-field schema; the
split is `[[a], [b]] ++ [[c]]`-shaped and each submitted row is full-width. -/
theorem C4_create_batching_witness :
    (create ["x", "y"] (fun n : Int => [("x", some n)]) [1, 2, 3] (some 2)
        = .ok [[[("x", some 1), ("y", (none : Option Int))],
                [("x", some 2), ("y", none)]],
               [[("x", some 3), ("y", none)]]] ∧
      (chunks (2 : Int).toNat [(1 : Int), 2, 3]).flatten = [1, 2, 3] ∧
      (∀ c ∈ chunks (2 : Int).toNat [(1 : Int), 2, 3], c.length ≤ (2 : Int).toNat)) ∧
    create ["x", "y"] (fun n : Int => [("x", some n)]) [1, 2, 3] (some 0)
      = .error (String.append "batch_size was " (toString (0 : Int))) := by
  constructor
  · refine ⟨?_, ?_, ?_⟩
    · have h := ((C4_create_batching (Int) ["x", "y"]
        (fun n : Int => [("x", some n)]) [1, 2, 3]).2.1 2 (by omega)).1
      rw [h]
      rfl
    · exact ((C4_create_batching (Int) ["x", "y"]
        (fun n : Int => [("x", some n)]) [1, 2, 3]).2.1 2 (by omega)).2.1
    · exact ((C4_create_batching (Int) ["x", "y"]
        (fun n : Int => [("x", some n)]) [1, 2, 3]).2.1 2 (by omega)).2.2
  · exact (C4_create_batching (Int) ["x", "y"]
      (fun n : Int => [("x", some n)]) [1, 2, 3]).2.2.1 0 (by omega)

/-! ## serialize_as_dict (src/bigorm/serialization.py)

Per-column data for one loaded entity property: the column's key, its
optional `default` (sqlalchemy stores a scalar as `is_scalar`, a callable as
`is_callable`; the callable arm is the user's zero-argument callable —
sqlalchemy's wrapper passes the `None` context through and discards it, as
in `default_arg(None)`), and the column type's optional `bind_processor`.
Composite properties (more than one column per property) raise before any of
this and are outside the claims, so each property carries exactly one
column.  The loaded attribute value of the instance accompanies its column
as an `Option V`. -/

inductive ColDefault (V : Type) where
  | scalar (v : V)
  | callable (f : Unit → Option V)

structure SColumn (V : Type) where
  propertyName : String
  key : String
  default : Option (ColDefault V)
  bindProcessor : Option (V → V)

/-- The body of the `serialize_as_dict` loop for one property: materialize
the column default when the attribute is unset/`None`, then apply the bind
processor only to a non-`None` value. -/
def serializeField {V : Type} (c : SColumn V) (attr : Option V) : Option V :=
  let value : Option V :=
    match attr, c.default with
    | none, some (.scalar v) => some v
    | none, some (.callable f) => f ()
    | v, _ => v
  match value with
  | none => none
  | some v => some ((c.bindProcessor.getD id) v)

/-- Embedding of `serialize_as_dict`: skips properties named in `excluded_keys`, emits
`column.key ↦ serializeField` for the rest, in declaration order. -/
def serialize_as_dict {V : Type} (fields : List (SColumn V × Option V))
    (excluded_keys : List String) : WireRow V :=
  (fields.filter (fun fc => !excluded_keys.contains fc.1.propertyName)).map
    (fun fc => (fc.1.key, serializeField fc.1 fc.2))

/-- C5: for every declared, non-excluded column whose attribute is unset or
`None` and which declares a default, the output mapping contains the
column's key bound to the materialized default: a scalar default is used
directly, a callable default is invoked with no arguments, and a
still-`None` result is left as null — with the bind processor applied only
to the non-null outcome. -/
theorem C5_defaults_materialized {V : Type}
    (fields : List (SColumn V × Option V)) (excluded_keys : List String)
    (c : SColumn V) (hmem : (c, (none : Option V)) ∈ fields)
    (hexcl : excluded_keys.contains c.propertyName = false) :
    (∀ v, c.default = some (.scalar v) →
      (c.key, some ((c.bindProcessor.getD id) v))
        ∈ serialize_as_dict fields excluded_keys) ∧
    (∀ f, c.default = some (.callable f) →
      (c.key, (f ()).map (c.bindProcessor.getD id))
        ∈ serialize_as_dict fields excluded_keys) := by
  have hfilter : (c, (none : Option V))
      ∈ fields.filter (fun fc => !excluded_keys.contains fc.1.propertyName) :=
    List.mem_filter.mpr ⟨hmem, by
      show (!excluded_keys.contains c.propertyName) = true
      rw [hexcl]
      rfl⟩
  constructor
  · intro v hv
    have hval : serializeField c none = some ((c.bindProcessor.getD id) v) := by
      simp only [serializeField, hv]
    have hout : (c.key, serializeField c none)
        ∈ serialize_as_dict fields excluded_keys :=
      List.mem_map_of_mem
        (fun fc : SColumn V × Option V => (fc.1.key, serializeField fc.1 fc.2))
        hfilter
    rw [hval] at hout
    exact hout
  · intro f hf
    have hval : serializeField c none = (f ()).map (c.bindProcessor.getD id) := by
      simp only [serializeField, hf]
      cases hfu : f () with
      | none => rfl
      | some v => rfl
    have hout : (c.key, serializeField c none)
        ∈ serialize_as_dict fields excluded_keys :=
      List.mem_map_of_mem
        (fun fc : SColumn V × Option V => (fc.1.key, serializeField fc.1 fc.2))
        hfilter
    rw [hval] at hout
    exact hout

/-- Witness for C5: a scalar default `7` materialized, and a callable
default returning `None` left null. -/
theorem C5_defaults_materialized_witness :
    (("a", some (7 : Int))
      ∈ serialize_as_dict
          [(({ propertyName := "a", key := "a", default := some (.scalar 7),
               bindProcessor := none } : SColumn Int), none)] []) ∧
    (("b", (none : Option Int))
      ∈ serialize_as_dict
          [(({ propertyName := "b", key := "b",
               default := some (.callable (fun _ => none)),
               bindProcessor := none } : SColumn Int), none)] []) := by
  constructor
  · exact (C5_defaults_materialized
      [(({ propertyName := "a", key := "a", default := some (.scalar 7),
           bindProcessor := none } : SColumn Int), none)] []
      { propertyName := "a", key := "a", default := some (.scalar 7),
        bindProcessor := none }
      (List.mem_singleton.mpr rfl) rfl).1 7 rfl
  · exact (C5_defaults_materialized
      [(({ propertyName := "b", key := "b",
           default := some (.callable (fun _ => none)),
           bindProcessor := none } : SColumn Int), none)] []
      { propertyName := "b", key := "b",
        default := some (.callable (fun _ => none)),
        bindProcessor := none }
      (List.mem_singleton.mpr rfl) rfl).2 (fun _ => none) rfl

/-! ## _json_dump / bigquery_json_serialize_default (src/bigorm/serialization.py)

`serialize_as_dict` yields a flat mapping from key to warehouse scalar, so
`_json_dump` is modelled on flat mappings whose values are `PyScalar`s; a
Python enum member wrapping a raw value is `PyScalar.enum`.  `json.dumps`
calls the `default` hook on a value it cannot natively serialize (an enum)
and then serializes whatever the hook returns; the hook here returns the
*string* `_json_dump(value.value)`, which `json.dumps` then encodes as a
JSON string.  `sort_keys=True` is a stable insertion sort on keys;
`ensure_ascii=False` passes non-ASCII characters through, so escaping covers
the quote and backslash (control characters do not occur in the claims'
values). -/

inductive PyScalar where
  | null
  | boolean (b : Bool)
  | int (n : Int)
  | str (s : String)
  | enum (raw : PyScalar)
  deriving Repr, DecidableEq

def jsonEscapeChar (c : Char) : String :=
  if c = '"' then "\\\"" else if c = '\\' then "\\\\" else String.singleton c

def jsonEscape (s : String) : String :=
  String.join (s.toList.map jsonEscapeChar)

/-- JSON encoding of a Python string value. -/
def encodeJsonString (s : String) : String :=
  "\"" ++ jsonEscape s ++ "\""

/-- Model of `json.dumps` on one scalar, with `bigquery_json_serialize_default` as the
`default` hook: the enum branch returns `_json_dump(value.value)` (for a
scalar raw value that is `dumpScalar raw`), a Python `str` which the outer
`json.dumps` then serializes as a JSON string. -/
def dumpScalar : PyScalar → String
  | .null => "null"
  | .boolean true => "true"
  | .boolean false => "false"
  | .int n => toString n
  | .str s => encodeJsonString s
  | .enum raw => encodeJsonString (dumpScalar raw)

def insertByKey (kv : String × PyScalar) :
    List (String × PyScalar) → List (String × PyScalar)
  | [] => [kv]
  | kv' :: rest =>
    if kv'.1 ≤ kv.1 then kv' :: insertByKey kv rest else kv :: kv' :: rest

def sortByKey : List (String × PyScalar) → List (String × PyScalar)
  | [] => []
  | kv :: rest => insertByKey kv (sortByKey rest)

/-- Embedding of `_json_dump` on a serialized flat mapping: `json.dumps(obj,
ensure_ascii=False, default=bigquery_json_serialize_default,
sort_keys=True)` with the default separators `', '` and `': '`. -/
def _json_dump (obj : List (String × PyScalar)) : String :=
  "\x7b" ++ String.intercalate ", "
    ((sortByKey obj).map
      (fun kv => encodeJsonString kv.1 ++ ": " ++ dumpScalar kv.2)) ++ "\x7d"

/-- The spec's bind-encoder rule, stated as a value transformation: an enum
is reduced to its raw value. -/
def reduceEnumToRaw : PyScalar → PyScalar
  | .enum raw => reduceEnumToRaw raw
  | v => v

/-- Counterexample to C8: for an enum with raw value `"x"` under key `"k"`,
the emitted JSON is `{"k": "\"x\""}` — the raw value JSON-encoded *twice* —
and differs from the claimed output `{"k": "x"}`, in which the enum is
reduced to its raw value and encoded exactly once. -/
theorem C8_counterexample :
    _json_dump [("k", PyScalar.enum (.str "x"))]
        ≠ _json_dump [("k", reduceEnumToRaw (PyScalar.enum (.str "x")))] ∧
    _json_dump [("k", PyScalar.enum (.str "x"))]
        = "\x7b\"k\": \"\\\"x\\\"\"\x7d" ∧
    _json_dump [("k", reduceEnumToRaw (PyScalar.enum (.str "x")))]
        = "\x7b\"k\": \"x\"\x7d" := by
  refine ⟨?_, rfl, rfl⟩
  decide

/-- C8 amended: the JSON encoding path does not reduce an enum to its raw
value; it encodes the raw value *twice*.  An enum member under any key is
serialized exactly as if it were the Python string holding the JSON encoding
of its raw value: the value position carries
`encodeJsonString (dumpScalar raw)` rather than `dumpScalar raw`. -/
theorem C8_enum_double_encoded (k : String) (raw : PyScalar) :
    _json_dump [(k, PyScalar.enum raw)]
        = _json_dump [(k, PyScalar.str (dumpScalar raw))] ∧
    _json_dump [(k, PyScalar.enum raw)]
        = "\x7b" ++ (encodeJsonString k ++ ": "
            ++ encodeJsonString (dumpScalar raw)) ++ "\x7d" := by
  constructor
  · rfl
  · rfl

/-- Witness for C8's amended theorem at key `"k"` and raw value `3`. -/
theorem C8_enum_double_encoded_witness :
    _json_dump [("k", PyScalar.enum (.int 3))]
        = _json_dump [("k", PyScalar.str (dumpScalar (.int 3)))] ∧
    _json_dump [("k", PyScalar.enum (.int 3))]
        = "\x7b" ++ (encodeJsonString "k" ++ ": "
            ++ encodeJsonString (dumpScalar (.int 3))) ++ "\x7d" :=
  C8_enum_double_encoded "k" (.int 3)
